import Mathlib

/-!
Verification of the liquidity-monitor analytics engine (src/index.js).

The JavaScript source is shallowly embedded: JS floating-point numbers are
modelled as exact rationals (`ℚ`), transaction counts as `ℕ`, the decimal
string `price_usd` as its parsed rational value (the source stores the string
and `parseFloat`s it at every use), `Date.now() / 1000` as an explicit `now`
parameter, and `Number.prototype.toFixed` as exact decimal rounding with ties
away from zero after taking the absolute value, as ECMA-262 specifies.
-/

namespace LiquidityMonitor

/-- Floor of a rational, computable in the kernel: with a positive
denominator, Euclidean division of the numerator is the floor. -/
def ratFloor (q : ℚ) : ℤ := Int.ediv q.num q.den

/-- Decimal digits of a natural number, left-padded with zeros to width
`d` (the fractional part of a fixed-point rendering). -/
def natPadded (n : ℕ) (d : ℕ) : String :=
  let s := toString n
  (String.mk (List.replicate (d - s.length) '0')) ++ s

/-- Model of JS `x.toFixed(d)` (ECMA-262 Number.prototype.toFixed): for
negative input emit a sign and continue with `|x|`; round `|x| * 10^d` to the
nearest integer, ties to the larger value; finally render with `d` digits
after the point. -/
def toFixed (q : ℚ) (d : ℕ) : String :=
  let sign := if q < 0 then "-" else ""
  let a := |q|
  let m : ℕ := (ratFloor (a * 10 ^ d + 1 / 2)).toNat
  let ip := m / 10 ^ d
  let fp := m % 10 ^ d
  if d = 0 then sign ++ toString ip
  else sign ++ toString ip ++ "." ++ natPadded fp d

/-- Buy/sell counts for one time window (`{buys, sells}` in the source). -/
structure TxnCount where
  buys : ℕ
  sells : ℕ

/-- The four transaction windows of a snapshot (`txns` in the source). -/
structure TxnWindows where
  m5 : TxnCount
  h1 : TxnCount
  h6 : TxnCount
  h24 : TxnCount

/-- The four volume windows of a snapshot (`volume` in the source). -/
structure VolumeWindows where
  h24 : ℚ
  h6 : ℚ
  h1 : ℚ
  m5 : ℚ

/-- The four price-change windows of a snapshot (`price_change`). -/
structure PriceChangeWindows where
  m5 : ℚ
  h1 : ℚ
  h6 : ℚ
  h24 : ℚ

/-- Liquidity figures of a snapshot (`liquidity` in the source). -/
structure LiquidityInfo where
  usd : ℚ
  base : ℚ
  quote : ℚ

/-- Identity of one side of the pair (`base_token` / `quote_token`). -/
structure TokenInfo where
  address : String
  name : String
  symbol : String

/-- Canonical market snapshot, the record built by `transformDexResponse`.
`price_usd` and `price_native` hold the parsed value of the source's decimal
strings. -/
structure MarketSnapshot where
  chain_id : String
  dex_id : String
  pair_address : String
  base_token : TokenInfo
  quote_token : TokenInfo
  price_native : ℚ
  price_usd : ℚ
  txns : TxnWindows
  volume : VolumeWindows
  price_change : PriceChangeWindows
  liquidity : LiquidityInfo
  fdv : ℚ
  market_cap : ℚ
  pair_created_at : ℚ

/-- Result record of `analyzeTokenRisk`. -/
structure RiskFinding where
  risk_score : ℤ
  vulnerabilities : List String
  recommendations : List String

/-- Result record of `analyzeMarketSentiment` (`breakdown` inlined). -/
structure SentimentBreakdown where
  social : ℚ
  transactions : ℚ
  price_action : ℚ

/-- Full result of `analyzeMarketSentiment`. -/
structure SentimentResult where
  score : ℚ
  breakdown : SentimentBreakdown
  trends : List String

/-- Model of `detectAlerts` (src/index.js lines 65-95), body translation: three
independent metric checks, each guarded by a positive previous value and a
strict threshold on the absolute percentage change, evaluated in
price, volume, liquidity order. -/
def detectAlerts (current previous : MarketSnapshot) : List String :=
  let currentPrice := current.price_usd
  let previousPrice := previous.price_usd
  let priceAlerts :=
    if previousPrice > 0 then
      let priceChange := |(currentPrice - previousPrice) / previousPrice * 100|
      if priceChange > 10 then
        ["PRICE ALERT: " ++ current.base_token.symbol ++ " " ++
          (if currentPrice > previousPrice then "increased" else "decreased") ++
          " by " ++ toFixed priceChange 2 ++ "%"]
      else []
    else []
  let volumeAlerts :=
    if previous.volume.h1 > 0 then
      let volChange := |(current.volume.h1 - previous.volume.h1) / previous.volume.h1 * 100|
      if volChange > 50 then
        ["VOLUME ALERT: Volume " ++
          (if current.volume.h1 > previous.volume.h1 then "increased" else "decreased") ++
          " by " ++ toFixed volChange 2 ++ "%"]
      else []
    else []
  let liquidityAlerts :=
    if previous.liquidity.usd > 0 then
      let liqChange := |(current.liquidity.usd - previous.liquidity.usd) / previous.liquidity.usd * 100|
      if liqChange > 20 then
        ["LIQUIDITY ALERT: Liquidity " ++
          (if current.liquidity.usd > previous.liquidity.usd then "increased" else "decreased") ++
          " by " ++ toFixed liqChange 2 ++ "%"]
      else []
    else []
  priceAlerts ++ volumeAlerts ++ liquidityAlerts

/-- JS fault model of calling `detectAlerts` with an absent `previous`: the
body dereferences `previous.price_usd` before any guard, so a `none` argument
is a TypeError, not a return value. A present argument runs the body. -/
def detectAlertsChecked (current : MarketSnapshot) (previous : Option MarketSnapshot) :
    Except String (List String) :=
  match previous with
  | none => Except.error "TypeError: cannot read price_usd of null"
  | some p => Except.ok (detectAlerts current p)

/-- Alert phase of the `monitorLiquidity` run (src/index.js lines 402-411):
`detectAlerts` is invoked only when a previous snapshot is cached; with an
empty cache the phase produces no alerts at all. -/
def runAlertPhase (current : MarketSnapshot) (cached : Option MarketSnapshot) : List String :=
  match cached with
  | none => []
  | some previous => detectAlerts current previous

/-- Risk rule 1 (lines 171-175): liquidity below 100000 adds 30. Each rule
yields its vulnerability entries, recommendation entries, and weight. -/
def riskRule1 (t : MarketSnapshot) : List String × List String × ℤ :=
  if t.liquidity.usd < 100000 then
    (["Low liquidity"], ["Increase liquidity or wait for higher liquidity levels"], 30)
  else ([], [], 0)

/-- Risk rule 2 (lines 178-188): 6h volatility above 20 adds 20, and the
nested impermanent-loss sub-rule adds 10 more when the same value exceeds
30. -/
def riskRule2 (t : MarketSnapshot) : List String × List String × ℤ :=
  let volatility := |t.price_change.h6|
  if volatility > 20 then
    if volatility > 30 then
      (["High volatility: " ++ toFixed volatility 2 ++ "% over 6h",
        "High impermanent loss risk"],
       ["Exercise caution due to high fluctuations", "Consider impermanent loss risks"], 30)
    else
      (["High volatility: " ++ toFixed volatility 2 ++ "% over 6h"],
       ["Exercise caution due to high fluctuations"], 20)
  else ([], [], 0)

/-- Risk rule 3 (lines 191-197): 6h-to-1h transaction ratio above 10 adds
20, guarded by a nonzero 1h total. -/
def riskRule3 (t : MarketSnapshot) : List String × List String × ℤ :=
  let tx_h6 : ℚ := (t.txns.h6.buys : ℚ) + t.txns.h6.sells
  let tx_h1 : ℚ := (t.txns.h1.buys : ℚ) + t.txns.h1.sells
  if tx_h1 > 0 ∧ tx_h6 / tx_h1 > 10 then
    (["Unusual transaction pattern"], ["Monitor for market manipulation"], 20)
  else ([], [], 0)

/-- Risk rule 4 (lines 200-204): positive market cap below liquidity adds
20. -/
def riskRule4 (t : MarketSnapshot) : List String × List String × ℤ :=
  if t.market_cap > 0 ∧ t.market_cap < t.liquidity.usd then
    (["Market cap < liquidity"], ["Review valuation"], 20)
  else ([], [], 0)

/-- Risk rule 5 (lines 207-213): token age under 7 days adds 15; `now` is
the value of `Date.now() / 1000` at the call. -/
def riskRule5 (now : ℚ) (t : MarketSnapshot) : List String × List String × ℤ :=
  let token_age := (now - t.pair_created_at) / 86400
  if token_age < 7 then
    (["New token (" ++ toFixed token_age 1 ++ " days old)"],
     ["Consider smaller position size"], 15)
  else ([], [], 0)

/-- Risk rule 6 (lines 216-226): with more than 10 transactions in 24h, a
sell share above 15 percent adds 25. -/
def riskRule6 (t : MarketSnapshot) : List String × List String × ℤ :=
  let h24_buys := t.txns.h24.buys
  let h24_sells := t.txns.h24.sells
  let total_tx := h24_buys + h24_sells
  if total_tx > 10 then
    let sell_pct := ((h24_sells : ℚ) / total_tx) * 100
    if sell_pct > 15 then
      (["High selling pressure: " ++ toFixed sell_pct 1 ++ "%"],
       ["Watch for potential sell-off"], 25)
    else ([], [], 0)
  else ([], [], 0)

/-- Risk rule 7 (lines 229-233): 24h price change above 50 adds 5. -/
def riskRule7 (t : MarketSnapshot) : List String × List String × ℤ :=
  if t.price_change.h24 > 50 then
    (["Possible pump: " ++ toFixed t.price_change.h24 2 ++ "%"],
     ["Extreme caution advised"], 5)
  else ([], [], 0)

/-- Risk rule 8 (lines 236-247): with a previous snapshot whose price is
positive, an absolute price change above 10 percent adds 10. -/
def riskRule8 (t : MarketSnapshot) (prev : Option MarketSnapshot) :
    List String × List String × ℤ :=
  match prev with
  | none => ([], [], 0)
  | some pd =>
    if pd.price_usd > 0 then
      let price_diff := |t.price_usd - pd.price_usd| / pd.price_usd * 100
      if price_diff > 10 then
        (["Sudden price change: " ++ toFixed price_diff 2 ++ "%"],
         ["Investigate price movement"], 10)
      else ([], [], 0)
    else ([], [], 0)

/-- The eight risk rules in the order the source body evaluates them. -/
def riskParts (now : ℚ) (t : MarketSnapshot) (prev : Option MarketSnapshot) :
    List (List String × List String × ℤ) :=
  [riskRule1 t, riskRule2 t, riskRule3 t, riskRule4 t,
   riskRule5 now t, riskRule6 t, riskRule7 t, riskRule8 t prev]

/-- Running total of `risk_score` before the final clamp: the sum of the
weights of the rules that fired. -/
def riskScoreRaw (now : ℚ) (t : MarketSnapshot) (prev : Option MarketSnapshot) : ℤ :=
  ((riskParts now t prev).map (fun p => p.2.2)).sum

/-- Model of `analyzeTokenRisk` (lines 165-254): the sequential vulnerability and
recommendation pushes of the source are the concatenation of the per-rule
contributions in rule order, and the returned score is the running total
clamped to 70 by `Math.min`. -/
def analyzeTokenRisk (now : ℚ) (t : MarketSnapshot) (prev : Option MarketSnapshot) :
    RiskFinding :=
  { risk_score := min (riskScoreRaw now t prev) 70
    vulnerabilities := ((riskParts now t prev).map (fun p => p.1)).flatten
    recommendations := ((riskParts now t prev).map (fun p => p.2.1)).flatten }

/-- Transaction sentiment (lines 257-264): net 24h buy share, zero when
there were no 24h transactions. -/
def txSentiment (t : MarketSnapshot) : ℚ :=
  let h24_buys := t.txns.h24.buys
  let h24_sells := t.txns.h24.sells
  let total_tx := h24_buys + h24_sells
  if total_tx > 0 then ((h24_buys : ℚ) - h24_sells) / total_tx else 0

/-- Price sentiment (lines 266-269): weighted 1h/24h change, clamped to
`[-1, 1]` by `Math.max(-1, Math.min(1, _))`. -/
def priceSentiment (t : MarketSnapshot) : ℚ :=
  let price_1h := t.price_change.h1 / 100
  let price_24h := t.price_change.h24 / 100
  max (-1) (min 1 (price_1h * 0.6 + price_24h * 0.4))

/-- Social sentiment (line 271): weighted 1h/24h change, not clamped. -/
def socialSentiment (t : MarketSnapshot) : ℚ :=
  let price_1h := t.price_change.h1 / 100
  let price_24h := t.price_change.h24 / 100
  price_1h * 0.3 + price_24h * 0.7

/-- Overall sentiment (line 272): weighted combination of the three
components. -/
def overallSentiment (t : MarketSnapshot) : ℚ :=
  txSentiment t * 0.4 + priceSentiment t * 0.4 + socialSentiment t * 0.2

/-- Trend ladder (lines 274-285): the first `trends` entry, chosen by the
mutually exclusive if/else chain on the overall score. -/
def ladderLabel (overall : ℚ) : String :=
  if overall > 0.7 then "Strong bullish sentiment"
  else if overall > 0.3 then "Moderate bullish"
  else if overall < -0.7 then "Strong bearish"
  else if overall < -0.3 then "Moderate bearish"
  else "Neutral"

/-- The five ladder strings the source can push first. -/
def ladderLabels : List String :=
  ["Strong bullish sentiment", "Moderate bullish", "Strong bearish",
   "Moderate bearish", "Neutral"]

/-- Momentum trend entries (lines 287-291). -/
def momentumTrends (t : MarketSnapshot) : List String :=
  let price_1h := t.price_change.h1 / 100
  let price_24h := t.price_change.h24 / 100
  if price_1h > 0 ∧ price_24h < 0 then ["Positive momentum vs negative trend"]
  else if price_1h < 0 ∧ price_24h > 0 then ["Negative momentum vs positive trend"]
  else []

/-- Buy/sell pressure trend entries (lines 293-297). -/
def pressureTrends (t : MarketSnapshot) : List String :=
  if t.txns.h24.buys > t.txns.h24.sells * 2 then ["Strong buying pressure"]
  else if t.txns.h24.sells > t.txns.h24.buys * 2 then ["Strong selling pressure"]
  else []

/-- Sentiment-shift trend entry (lines 299-302), present only when a
previous sentiment was given and the score moved by more than 0.3. -/
def shiftTrends (overall : ℚ) (previousSentiment : Option SentimentResult) : List String :=
  match previousSentiment with
  | none => []
  | some prev =>
    if |overall - prev.score| > 0.3 then
      [if overall > prev.score then "Significant positive shift"
       else "Significant negative shift"]
    else []

/-- Model of `analyzeMarketSentiment` (lines 256-313): the sequential trend pushes of
the source are the concatenation of ladder, momentum, pressure, and shift
entries, and the result carries the overall score with its breakdown. -/
def analyzeMarketSentiment (t : MarketSnapshot) (previousSentiment : Option SentimentResult) :
    SentimentResult :=
  { score := overallSentiment t
    breakdown :=
      { social := socialSentiment t
        transactions := txSentiment t
        price_action := priceSentiment t }
    trends := [ladderLabel (overallSentiment t)] ++ momentumTrends t ++
      pressureTrends t ++ shiftTrends (overallSentiment t) previousSentiment }

/-- Model of `generateAIInsights` (lines 315-331), with the `CLAUDE_API_KEY`
environment check abstracted into a boolean: without a key a single sentinel
string, otherwise the canned list capped at five entries by `slice`. -/
def generateAIInsights (hasApiKey : Bool) : List String :=
  if hasApiKey then
    (["Monitor liquidity closely.", "Consider impermanent loss risk.",
      "Unusual transaction pattern detected."]).take 5
  else ["AI insights unavailable - API key missing"]

/-- Price metrics block of the report. -/
structure PriceMetrics where
  current : ℚ
  change_h1 : ℚ
  change_h6 : ℚ
  change_h24 : ℚ

/-- Volume metrics block of the report. -/
structure VolumeMetrics where
  h1 : ℚ
  h6 : ℚ
  h24 : ℚ

/-- The 1h transaction metrics block of the report; `ratio` is the source's
`sells ? buys / sells : buys`, reflecting JS falsiness of the number 0. -/
structure TxH1Metrics where
  buys : ℕ
  sells : ℕ
  ratio : ℚ

/-- Metrics block of the report. -/
structure ReportMetrics where
  price : PriceMetrics
  volume : VolumeMetrics
  liquidity : ℚ
  market_cap : ℚ
  fdv : ℚ
  transactions_h1 : TxH1Metrics

/-- The persisted analytics report. -/
structure Report where
  token_name : String
  token_symbol : String
  timestamp : ℚ
  metrics : ReportMetrics
  risk : RiskFinding
  ai_insights : List String

/-- Model of `generateAnalyticsReport` (lines 333-367). `weeklyData` and `sentiment`
are accepted and unused, as in the source; `now` is the timestamp; the AI
insights are inlined from `generateAIInsights`. -/
def generateAnalyticsReport (now : ℚ) (hasApiKey : Bool) (tokenData : MarketSnapshot)
    (riskAnalysis : RiskFinding) (weeklyData : Option Report)
    (sentiment : SentimentResult) : Report :=
  let _ := weeklyData
  let _ := sentiment
  { token_name := tokenData.base_token.name
    token_symbol := tokenData.base_token.symbol
    timestamp := now
    metrics :=
      { price :=
          { current := tokenData.price_usd
            change_h1 := tokenData.price_change.h1
            change_h6 := tokenData.price_change.h6
            change_h24 := tokenData.price_change.h24 }
        volume :=
          { h1 := tokenData.volume.h1
            h6 := tokenData.volume.h6
            h24 := tokenData.volume.h24 }
        liquidity := tokenData.liquidity.usd
        market_cap := tokenData.market_cap
        fdv := tokenData.fdv
        transactions_h1 :=
          { buys := tokenData.txns.h1.buys
            sells := tokenData.txns.h1.sells
            ratio :=
              if tokenData.txns.h1.sells ≠ 0 then
                (tokenData.txns.h1.buys : ℚ) / tokenData.txns.h1.sells
              else (tokenData.txns.h1.buys : ℚ) } }
    risk := riskAnalysis
    ai_insights := generateAIInsights hasApiKey }

/-- One point of the per-token price history (lines 415-419). -/
structure PricePoint where
  timestamp : ℚ
  price : ℚ
  volume : ℚ

/-- The point appended on one invocation (lines 415-419). -/
def makePricePoint (now : ℚ) (t : MarketSnapshot) : PricePoint :=
  { timestamp := now, price := t.price_usd, volume := t.volume.h1 }

/-- History update of one invocation (lines 423-426): push the new point,
then `slice(-1000)` (keep the last 1000 entries) when the length exceeds
1000. -/
def pushHistory (h : List PricePoint) (p : PricePoint) : List PricePoint :=
  let h2 := h ++ [p]
  if h2.length > 1000 then h2.drop (h2.length - 1000) else h2

/-- The last `n` entries of a list, in order. -/
def lastEntries (n : ℕ) (l : List PricePoint) : List PricePoint :=
  l.drop (l.length - n)

/-- Snapshot with every numeric field zero and every string empty, the
default-on-missing shape of the Normalizer. -/
def zeroSnapshot : MarketSnapshot :=
  { chain_id := "", dex_id := "", pair_address := ""
    base_token := { address := "", name := "", symbol := "" }
    quote_token := { address := "", name := "", symbol := "" }
    price_native := 0, price_usd := 0
    txns := { m5 := ⟨0, 0⟩, h1 := ⟨0, 0⟩, h6 := ⟨0, 0⟩, h24 := ⟨0, 0⟩ }
    volume := { h24 := 0, h6 := 0, h1 := 0, m5 := 0 }
    price_change := { m5 := 0, h1 := 0, h6 := 0, h24 := 0 }
    liquidity := { usd := 0, base := 0, quote := 0 }
    fdv := 0, market_cap := 0, pair_created_at := 0 }

/-- The worked risk example: liquidity 50000, 6h change 25, 24h change 60,
pair created three days before `now = 259200`, 24h transactions 10 buys and
95 sells, everything else zero. -/
def c4Snapshot : MarketSnapshot :=
  { zeroSnapshot with
    liquidity := { usd := 50000, base := 0, quote := 0 }
    price_change := { m5 := 0, h1 := 0, h6 := 25, h24 := 60 }
    txns := { m5 := ⟨0, 0⟩, h1 := ⟨0, 0⟩, h6 := ⟨0, 0⟩, h24 := ⟨10, 95⟩ } }

/-- Snapshot whose 24h price change of 1000 percent pushes the unclamped
social component to 7 and the overall score to 1.8. -/
def c3Snapshot : MarketSnapshot :=
  { zeroSnapshot with price_change := { m5 := 0, h1 := 0, h6 := 0, h24 := 1000 } }

/-- Snapshot whose overall sentiment is exactly 1, landing in the strongest
ladder branch. -/
def c5Snapshot : MarketSnapshot :=
  { zeroSnapshot with
    price_change := { m5 := 0, h1 := 100, h6 := 0, h24 := 100 }
    txns := { m5 := ⟨0, 0⟩, h1 := ⟨0, 0⟩, h6 := ⟨0, 0⟩, h24 := ⟨10, 0⟩ } }

/-- Previous snapshot of the alert example: price 1.00, symbol TKN, no
volume or liquidity. -/
def c7Previous : MarketSnapshot :=
  { zeroSnapshot with
    base_token := { address := "", name := "", symbol := "TKN" }
    price_usd := 1 }

/-- Current snapshot of the alert example with price 1.15. -/
def c7Current115 : MarketSnapshot := { c7Previous with price_usd := 1.15 }

/-- Current snapshot of the alert example with price 1.05. -/
def c7Current105 : MarketSnapshot := { c7Previous with price_usd := 1.05 }

/-- Snapshot with 6h volatility 40, firing the volatility rule and its
impermanent-loss sub-rule. -/
def c6Snapshot : MarketSnapshot :=
  { zeroSnapshot with price_change := { m5 := 0, h1 := 0, h6 := 40, h24 := 0 } }

/-- Two strings differing inside the first one's prefix part are different,
whatever is appended after the prefix. -/
theorem append_ne_of_mismatch (pre x target : String) (i : ℕ) (hi : i < pre.data.length)
    (hne : pre.data[i]? ≠ target.data[i]?) : pre ++ x ≠ target := by
  intro h
  apply hne
  have hd : pre.data ++ x.data = target.data := by rw [← String.data_append, h]
  rw [← hd, List.getElem?_append_left hi]

/-- The formatted volatility entry is never the impermanent-loss entry. -/
theorem highVol_ne_imp (s : String) :
    "High volatility: " ++ s ++ "% over 6h" ≠ "High impermanent loss risk" := by
  rw [String.append_assoc]
  exact append_ne_of_mismatch _ _ _ 5 (by decide) (by decide)

/-- The formatted token-age entry is never the impermanent-loss entry. -/
theorem newToken_ne_imp (s : String) :
    "New token (" ++ s ++ " days old)" ≠ "High impermanent loss risk" := by
  rw [String.append_assoc]
  exact append_ne_of_mismatch _ _ _ 0 (by decide) (by decide)

/-- The formatted sell-pressure entry is never the impermanent-loss entry. -/
theorem sellPressure_ne_imp (s : String) :
    "High selling pressure: " ++ s ++ "%" ≠ "High impermanent loss risk" := by
  rw [String.append_assoc]
  exact append_ne_of_mismatch _ _ _ 5 (by decide) (by decide)

/-- The formatted pump entry is never the impermanent-loss entry. -/
theorem pump_ne_imp (s : String) :
    "Possible pump: " ++ s ++ "%" ≠ "High impermanent loss risk" := by
  rw [String.append_assoc]
  exact append_ne_of_mismatch _ _ _ 0 (by decide) (by decide)

/-- The formatted sudden-change entry is never the impermanent-loss entry. -/
theorem sudden_ne_imp (s : String) :
    "Sudden price change: " ++ s ++ "%" ≠ "High impermanent loss risk" := by
  rw [String.append_assoc]
  exact append_ne_of_mismatch _ _ _ 0 (by decide) (by decide)

/-- Every rule weight is nonnegative: rule 1. -/
theorem riskRule1_weight_nonneg (t : MarketSnapshot) : 0 ≤ (riskRule1 t).2.2 := by
  unfold riskRule1; split_ifs <;> norm_num

/-- Every rule weight is nonnegative: rule 2. -/
theorem riskRule2_weight_nonneg (t : MarketSnapshot) : 0 ≤ (riskRule2 t).2.2 := by
  simp only [riskRule2]; split_ifs <;> norm_num

/-- Every rule weight is nonnegative: rule 3. -/
theorem riskRule3_weight_nonneg (t : MarketSnapshot) : 0 ≤ (riskRule3 t).2.2 := by
  simp only [riskRule3]; split_ifs <;> norm_num

/-- Every rule weight is nonnegative: rule 4. -/
theorem riskRule4_weight_nonneg (t : MarketSnapshot) : 0 ≤ (riskRule4 t).2.2 := by
  unfold riskRule4; split_ifs <;> norm_num

/-- Every rule weight is nonnegative: rule 5. -/
theorem riskRule5_weight_nonneg (now : ℚ) (t : MarketSnapshot) :
    0 ≤ (riskRule5 now t).2.2 := by
  simp only [riskRule5]; split_ifs <;> norm_num

/-- Every rule weight is nonnegative: rule 6. -/
theorem riskRule6_weight_nonneg (t : MarketSnapshot) : 0 ≤ (riskRule6 t).2.2 := by
  simp only [riskRule6]; split_ifs <;> norm_num

/-- Every rule weight is nonnegative: rule 7. -/
theorem riskRule7_weight_nonneg (t : MarketSnapshot) : 0 ≤ (riskRule7 t).2.2 := by
  simp only [riskRule7]; split_ifs <;> norm_num

/-- Every rule weight is nonnegative: rule 8. -/
theorem riskRule8_weight_nonneg (t : MarketSnapshot) (prev : Option MarketSnapshot) :
    0 ≤ (riskRule8 t prev).2.2 := by
  cases prev with
  | none => norm_num [riskRule8]
  | some pd => simp only [riskRule8]; split_ifs <;> norm_num

/-- The raw risk total is nonnegative because every rule weight is. -/
theorem riskScoreRaw_nonneg (now : ℚ) (t : MarketSnapshot) (prev : Option MarketSnapshot) :
    0 ≤ riskScoreRaw now t prev := by
  unfold riskScoreRaw riskParts
  simp only [List.map_cons, List.map_nil, List.sum_cons, List.sum_nil, add_zero]
  have h1 := riskRule1_weight_nonneg t
  have h2 := riskRule2_weight_nonneg t
  have h3 := riskRule3_weight_nonneg t
  have h4 := riskRule4_weight_nonneg t
  have h5 := riskRule5_weight_nonneg now t
  have h6 := riskRule6_weight_nonneg t
  have h7 := riskRule7_weight_nonneg t
  have h8 := riskRule8_weight_nonneg t prev
  linarith

/-- Claim C1: for every snapshot and optional previous snapshot, the risk
score returned by `analyzeTokenRisk` lies in `[0, 70]` and equals the sum of
the fired rule weights clamped above at 70. -/
theorem c1_risk_score_clamped (now : ℚ) (t : MarketSnapshot) (prev : Option MarketSnapshot) :
    0 ≤ (analyzeTokenRisk now t prev).risk_score ∧
    (analyzeTokenRisk now t prev).risk_score ≤ 70 ∧
    (analyzeTokenRisk now t prev).risk_score = min (riskScoreRaw now t prev) 70 :=
  ⟨le_min (riskScoreRaw_nonneg now t prev) (by norm_num), min_le_right _ _, rfl⟩

/-- Claim C2 counterexample: called directly with an absent previous
snapshot, `detectAlerts` faults on the unguarded `previous.price_usd` access
instead of returning the empty list. -/
theorem c2_counterexample :
    detectAlertsChecked zeroSnapshot none =
      Except.error "TypeError: cannot read price_usd of null" ∧
    detectAlertsChecked zeroSnapshot none ≠ Except.ok [] :=
  ⟨rfl, fun h => Except.noConfusion h⟩

/-- Claim C2 amended: the monitor run produces no alerts when no previous
snapshot is cached, because the alert phase only invokes `detectAlerts` when
the cache holds a previous snapshot. -/
theorem c2_no_previous_no_alerts (current : MarketSnapshot) :
    runAlertPhase current none = [] := rfl

/-- Claim C3 counterexample: a 24h price change of 1000 percent drives both
the sentiment score and its social component above 1. -/
theorem c3_counterexample :
    1 < (analyzeMarketSentiment c3Snapshot none).score ∧
    1 < (analyzeMarketSentiment c3Snapshot none).breakdown.social := by
  with_unfolding_all decide

/-- Claim C3 amended: the transactions and price-action components of every
sentiment breakdown lie in `[-1, 1]`; the score and the social component are
not clamped. -/
theorem c3_breakdown_bounds (t : MarketSnapshot) (prev : Option SentimentResult) :
    -1 ≤ (analyzeMarketSentiment t prev).breakdown.transactions ∧
    (analyzeMarketSentiment t prev).breakdown.transactions ≤ 1 ∧
    -1 ≤ (analyzeMarketSentiment t prev).breakdown.price_action ∧
    (analyzeMarketSentiment t prev).breakdown.price_action ≤ 1 := by
  have htx : -1 ≤ txSentiment t ∧ txSentiment t ≤ 1 := by
    simp only [txSentiment]
    split_ifs with h
    · have hb : (0:ℚ) ≤ (t.txns.h24.buys : ℚ) := Nat.cast_nonneg _
      have hs : (0:ℚ) ≤ (t.txns.h24.sells : ℚ) := Nat.cast_nonneg _
      have hpos : (0:ℚ) < ((t.txns.h24.buys + t.txns.h24.sells : ℕ) : ℚ) := by
        exact_mod_cast h
      constructor
      · rw [le_div_iff₀ hpos]
        push_cast
        linarith
      · rw [div_le_one hpos]
        push_cast
        linarith
    · norm_num
  have hpa : -1 ≤ priceSentiment t ∧ priceSentiment t ≤ 1 := by
    unfold priceSentiment
    exact ⟨le_max_left _ _, max_le (by norm_num) (min_le_left _ _)⟩
  exact ⟨htx.1, htx.2, hpa.1, hpa.2⟩

/-- Claim C4: on the worked example snapshot the vulnerabilities are exactly
the five expected entries (without the impermanent-loss sub-rule), the raw
weight total is 95, and the returned score is clamped to 70. -/
theorem c4_worked_example :
    (analyzeTokenRisk 259200 c4Snapshot none).vulnerabilities =
      ["Low liquidity", "High volatility: 25.00% over 6h", "New token (3.0 days old)",
       "High selling pressure: 90.5%", "Possible pump: 60.00%"] ∧
    riskScoreRaw 259200 c4Snapshot none = 95 ∧
    (analyzeTokenRisk 259200 c4Snapshot none).risk_score = 70 := by
  with_unfolding_all decide

/-- Claim C8: a snapshot with zero 24h buys and zero 24h sells yields a
transactions component of exactly zero, the guarded division never being
taken. -/
theorem c8_zero_txns_zero_sentiment (t : MarketSnapshot) (prev : Option SentimentResult)
    (hb : t.txns.h24.buys = 0) (hs : t.txns.h24.sells = 0) :
    (analyzeMarketSentiment t prev).breakdown.transactions = 0 := by
  simp [analyzeMarketSentiment, txSentiment, hb, hs]

/-- Witness for claim C8 at the all-zero snapshot. -/
theorem c8_zero_txns_zero_sentiment_witness :
    zeroSnapshot.txns.h24.buys = 0 ∧ zeroSnapshot.txns.h24.sells = 0 ∧
    (analyzeMarketSentiment zeroSnapshot none).breakdown.transactions = 0 :=
  ⟨rfl, rfl, c8_zero_txns_zero_sentiment zeroSnapshot none rfl rfl⟩

/-- Claim C10: the 1h transaction ratio in the report is the buy count
divided by the sell count when sells is nonzero, and the buy count itself
when sells is zero, so no division by zero is performed. -/
theorem c10_report_ratio (now : ℚ) (hasApiKey : Bool) (t : MarketSnapshot)
    (risk : RiskFinding) (weekly : Option Report) (sent : SentimentResult) :
    (generateAnalyticsReport now hasApiKey t risk weekly sent).metrics.transactions_h1.ratio =
      if t.txns.h1.sells = 0 then (t.txns.h1.buys : ℚ)
      else (t.txns.h1.buys : ℚ) / t.txns.h1.sells := by
  by_cases h : t.txns.h1.sells = 0 <;> simp [generateAnalyticsReport, h]

/-- The ladder always chooses one of the five ladder strings. -/
theorem ladderLabel_mem_labels (q : ℚ) : ladderLabel q ∈ ladderLabels := by
  unfold ladderLabel
  split_ifs <;> decide

/-- The five ladder strings are pairwise distinct. -/
theorem ladderLabels_nodup : ladderLabels.Nodup := by decide

/-- Momentum trend entries are never ladder strings. -/
theorem momentum_not_ladder (t : MarketSnapshot) :
    ∀ l ∈ momentumTrends t, l ∉ ladderLabels := by
  intro l hl
  simp only [momentumTrends] at hl
  split_ifs at hl
  · rw [List.mem_singleton] at hl; subst hl; decide
  · rw [List.mem_singleton] at hl; subst hl; decide
  · exact absurd hl (List.not_mem_nil l)

/-- Pressure trend entries are never ladder strings. -/
theorem pressure_not_ladder (t : MarketSnapshot) :
    ∀ l ∈ pressureTrends t, l ∉ ladderLabels := by
  intro l hl
  simp only [pressureTrends] at hl
  split_ifs at hl
  · rw [List.mem_singleton] at hl; subst hl; decide
  · rw [List.mem_singleton] at hl; subst hl; decide
  · exact absurd hl (List.not_mem_nil l)

/-- Shift trend entries are never ladder strings. -/
theorem shift_not_ladder (overall : ℚ) (prev : Option SentimentResult) :
    ∀ l ∈ shiftTrends overall prev, l ∉ ladderLabels := by
  intro l hl
  cases prev with
  | none => exact absurd hl (List.not_mem_nil l)
  | some p =>
    simp only [shiftTrends] at hl
    split_ifs at hl
    all_goals first
      | exact absurd hl (List.not_mem_nil l)
      | (rw [List.mem_singleton] at hl; subst hl; decide)

/-- Filtering a duplicate-free list for membership in another list keeps
exactly `L` when `L` is the unique element present there. -/
theorem filter_mem_eq_singleton (ls : List String) (trends : List String) (L : String)
    (hL : L ∈ ls) (hnd : ls.Nodup)
    (h : ∀ l ∈ ls, (l ∈ trends ↔ l = L)) :
    ls.filter (fun l => decide (l ∈ trends)) = [L] := by
  induction ls with
  | nil => cases hL
  | cons a as ih =>
    rw [List.nodup_cons] at hnd
    rw [List.filter_cons]
    by_cases ha : a = L
    · subst ha
      have hamem : a ∈ trends := (h a (List.mem_cons_self a as)).mpr rfl
      rw [if_pos (decide_eq_true hamem)]
      have hnil : as.filter (fun l => decide (l ∈ trends)) = [] := by
        rw [List.filter_eq_nil_iff]
        intro l hl
        simp only [decide_eq_true_eq]
        intro hmem
        have heq := (h l (List.mem_cons_of_mem a hl)).mp hmem
        exact hnd.1 (heq ▸ hl)
      rw [hnil]
    · have hnot : ¬ a ∈ trends := fun hmem => ha ((h a (List.mem_cons_self a as)).mp hmem)
      rw [if_neg (by simpa using hnot)]
      exact ih (List.mem_of_ne_of_mem (fun he => ha he.symm) hL) hnd.2
        (fun l hl => h l (List.mem_cons_of_mem a hl))

/-- Claim C5 counterexample: a snapshot with overall sentiment 1 takes the
strongest ladder branch, whose string is "Strong bullish sentiment", so none
of the five labels named by the claim occurs in the trends. -/
theorem c5_counterexample :
    (analyzeMarketSentiment c5Snapshot none).trends =
      ["Strong bullish sentiment", "Strong buying pressure"] ∧
    "Strong bullish" ∉ (analyzeMarketSentiment c5Snapshot none).trends ∧
    "Moderate bullish" ∉ (analyzeMarketSentiment c5Snapshot none).trends ∧
    "Strong bearish" ∉ (analyzeMarketSentiment c5Snapshot none).trends ∧
    "Moderate bearish" ∉ (analyzeMarketSentiment c5Snapshot none).trends ∧
    "Neutral" ∉ (analyzeMarketSentiment c5Snapshot none).trends := by
  with_unfolding_all decide

/-- Claim C5 amended: for every snapshot and optional previous sentiment,
exactly one of the five ladder strings (with "Strong bullish sentiment" as
the strongest label) occurs in the trends, it is the one chosen by the
threshold ladder on the overall score, and it is the first element. -/
theorem c5_ladder_exactly_one (t : MarketSnapshot) (prev : Option SentimentResult) :
    (analyzeMarketSentiment t prev).trends.head? =
      some (ladderLabel (overallSentiment t)) ∧
    ladderLabels.filter
        (fun l => decide (l ∈ (analyzeMarketSentiment t prev).trends)) =
      [ladderLabel (overallSentiment t)] := by
  constructor
  · rfl
  · apply filter_mem_eq_singleton _ _ _ (ladderLabel_mem_labels (overallSentiment t))
      ladderLabels_nodup
    intro l hl
    constructor
    · intro hmem
      simp only [analyzeMarketSentiment, List.singleton_append, List.cons_append,
        List.append_assoc, List.mem_cons, List.mem_append, List.mem_singleton,
        List.not_mem_nil, or_false, false_or] at hmem
      rcases hmem with hmem | hmem | hmem | hmem
      · exact hmem
      · exact absurd hl (momentum_not_ladder t l hmem)
      · exact absurd hl (pressure_not_ladder t l hmem)
      · exact absurd hl (shift_not_ladder (overallSentiment t) prev l hmem)
    · intro he
      subst he
      simp only [analyzeMarketSentiment, List.singleton_append, List.cons_append]
      exact List.mem_cons_self _ _

/-- The impermanent-loss entry never comes from rule 1. -/
theorem imp_not_mem_rule1 (t : MarketSnapshot) :
    "High impermanent loss risk" ∉ (riskRule1 t).1 := by
  simp only [riskRule1]
  split_ifs <;> decide

/-- The impermanent-loss entry comes from rule 2 exactly when the 6h
volatility exceeds 30. -/
theorem imp_mem_rule2_iff (t : MarketSnapshot) :
    "High impermanent loss risk" ∈ (riskRule2 t).1 ↔ 30 < |t.price_change.h6| := by
  simp only [riskRule2]
  split_ifs with h1 h2
  · exact iff_of_true (by simp) h2
  · refine iff_of_false ?_ h2
    rw [List.mem_singleton]
    intro hh
    exact highVol_ne_imp (toFixed |t.price_change.h6| 2) hh.symm
  · refine iff_of_false (by simp) (fun h30 => h1 (by linarith))

/-- The impermanent-loss entry never comes from rule 3. -/
theorem imp_not_mem_rule3 (t : MarketSnapshot) :
    "High impermanent loss risk" ∉ (riskRule3 t).1 := by
  simp only [riskRule3]
  split_ifs <;> decide

/-- The impermanent-loss entry never comes from rule 4. -/
theorem imp_not_mem_rule4 (t : MarketSnapshot) :
    "High impermanent loss risk" ∉ (riskRule4 t).1 := by
  simp only [riskRule4]
  split_ifs <;> decide

/-- The impermanent-loss entry never comes from rule 5. -/
theorem imp_not_mem_rule5 (now : ℚ) (t : MarketSnapshot) :
    "High impermanent loss risk" ∉ (riskRule5 now t).1 := by
  simp only [riskRule5]
  split_ifs
  · rw [List.mem_singleton]
    intro hh
    exact newToken_ne_imp (toFixed ((now - t.pair_created_at) / 86400) 1) hh.symm
  · exact List.not_mem_nil _

/-- The impermanent-loss entry never comes from rule 6. -/
theorem imp_not_mem_rule6 (t : MarketSnapshot) :
    "High impermanent loss risk" ∉ (riskRule6 t).1 := by
  simp only [riskRule6]
  split_ifs
  · rw [List.mem_singleton]
    intro hh
    exact sellPressure_ne_imp
      (toFixed ((t.txns.h24.sells : ℚ) / ((t.txns.h24.buys + t.txns.h24.sells : ℕ) : ℚ) * 100) 1)
      hh.symm
  · exact List.not_mem_nil _
  · exact List.not_mem_nil _

/-- The impermanent-loss entry never comes from rule 7. -/
theorem imp_not_mem_rule7 (t : MarketSnapshot) :
    "High impermanent loss risk" ∉ (riskRule7 t).1 := by
  simp only [riskRule7]
  split_ifs
  · rw [List.mem_singleton]
    intro hh
    exact pump_ne_imp (toFixed t.price_change.h24 2) hh.symm
  · exact List.not_mem_nil _

/-- The impermanent-loss entry never comes from rule 8. -/
theorem imp_not_mem_rule8 (t : MarketSnapshot) (prev : Option MarketSnapshot) :
    "High impermanent loss risk" ∉ (riskRule8 t prev).1 := by
  cases prev with
  | none => exact List.not_mem_nil _
  | some pd =>
    simp only [riskRule8]
    split_ifs
    · rw [List.mem_singleton]
      intro hh
      exact sudden_ne_imp (toFixed (|t.price_usd - pd.price_usd| / pd.price_usd * 100) 2) hh.symm
    · exact List.not_mem_nil _
    · exact List.not_mem_nil _

/-- The vulnerability list is the concatenation of the per-rule entries. -/
theorem vulnerabilities_eq (now : ℚ) (t : MarketSnapshot) (prev : Option MarketSnapshot) :
    (analyzeTokenRisk now t prev).vulnerabilities =
      (riskRule1 t).1 ++ ((riskRule2 t).1 ++ ((riskRule3 t).1 ++ ((riskRule4 t).1 ++
        ((riskRule5 now t).1 ++ ((riskRule6 t).1 ++
          ((riskRule7 t).1 ++ (riskRule8 t prev).1)))))) := by
  simp [analyzeTokenRisk, riskParts]

/-- Claim C6: the impermanent-loss entry appears among the vulnerabilities
exactly when the 6h volatility exceeds 30, and whenever it appears the
volatility entry of the enclosing rule is present as well. -/
theorem c6_impermanent_loss_dependency (now : ℚ) (t : MarketSnapshot)
    (prev : Option MarketSnapshot) :
    ("High impermanent loss risk" ∈ (analyzeTokenRisk now t prev).vulnerabilities ↔
      30 < |t.price_change.h6|) ∧
    (30 < |t.price_change.h6| →
      ("High volatility: " ++ toFixed |t.price_change.h6| 2 ++ "% over 6h") ∈
        (analyzeTokenRisk now t prev).vulnerabilities) := by
  rw [vulnerabilities_eq now t prev]
  simp only [List.mem_append]
  constructor
  · constructor
    · rintro (h | h | h | h | h | h | h | h)
      · exact absurd h (imp_not_mem_rule1 t)
      · exact (imp_mem_rule2_iff t).mp h
      · exact absurd h (imp_not_mem_rule3 t)
      · exact absurd h (imp_not_mem_rule4 t)
      · exact absurd h (imp_not_mem_rule5 now t)
      · exact absurd h (imp_not_mem_rule6 t)
      · exact absurd h (imp_not_mem_rule7 t)
      · exact absurd h (imp_not_mem_rule8 t prev)
    · intro h30
      exact Or.inr (Or.inl ((imp_mem_rule2_iff t).mpr h30))
  · intro h30
    refine Or.inr (Or.inl ?_)
    simp only [riskRule2]
    rw [if_pos (by linarith), if_pos h30]
    simp

/-- Witness for claim C6 at a snapshot with 6h volatility 40. -/
theorem c6_impermanent_loss_dependency_witness :
    30 < |c6Snapshot.price_change.h6| ∧
    "High impermanent loss risk" ∈ (analyzeTokenRisk 0 c6Snapshot none).vulnerabilities ∧
    ("High volatility: " ++ toFixed |c6Snapshot.price_change.h6| 2 ++ "% over 6h") ∈
      (analyzeTokenRisk 0 c6Snapshot none).vulnerabilities := by
  have h := c6_impermanent_loss_dependency 0 c6Snapshot none
  have h30 : (30 : ℚ) < |c6Snapshot.price_change.h6| := by
    with_unfolding_all decide
  exact ⟨h30, h.1.mpr h30, h.2 h30⟩

/-- A guarded nested conditional collapses to a single conjunction guard. -/
theorem ite_nested_list (A B : Prop) [Decidable A] [Decidable B] (x : List String) :
    (if A then (if B then x else []) else []) = if A ∧ B then x else [] := by
  by_cases hA : A <;> by_cases hB : B <;> simp [hA, hB]

/-- Claim C7: with a previous snapshot present, `detectAlerts` checks price,
volume, and liquidity independently and in that order; each metric alerts
exactly when the previous value is positive and the absolute percentage
change strictly exceeds its threshold (10, 50, 20), with the wording decided
by the sign of current minus previous; on the worked example, price 1.00 to
1.15 alerts with 15.00 percent and price 1.00 to 1.05 does not alert. -/
theorem c7_detectAlerts_characterization :
    (∀ c p : MarketSnapshot,
      detectAlerts c p =
        (if p.price_usd > 0 ∧ |(c.price_usd - p.price_usd) / p.price_usd * 100| > 10 then
          ["PRICE ALERT: " ++ c.base_token.symbol ++ " " ++
            (if 0 < c.price_usd - p.price_usd then "increased" else "decreased") ++
            " by " ++ toFixed (|(c.price_usd - p.price_usd) / p.price_usd * 100|) 2 ++ "%"]
         else []) ++
        (if p.volume.h1 > 0 ∧ |(c.volume.h1 - p.volume.h1) / p.volume.h1 * 100| > 50 then
          ["VOLUME ALERT: Volume " ++
            (if 0 < c.volume.h1 - p.volume.h1 then "increased" else "decreased") ++
            " by " ++ toFixed (|(c.volume.h1 - p.volume.h1) / p.volume.h1 * 100|) 2 ++ "%"]
         else []) ++
        (if p.liquidity.usd > 0 ∧
            |(c.liquidity.usd - p.liquidity.usd) / p.liquidity.usd * 100| > 20 then
          ["LIQUIDITY ALERT: Liquidity " ++
            (if 0 < c.liquidity.usd - p.liquidity.usd then "increased" else "decreased") ++
            " by " ++ toFixed (|(c.liquidity.usd - p.liquidity.usd) / p.liquidity.usd * 100|) 2
            ++ "%"]
         else [])) ∧
    detectAlerts c7Current115 c7Previous = ["PRICE ALERT: TKN increased by 15.00%"] ∧
    detectAlerts c7Current105 c7Previous = [] := by
  refine ⟨?_, by with_unfolding_all decide, by with_unfolding_all decide⟩
  intro c p
  simp only [detectAlerts, sub_pos, ite_nested_list]

/-- One `pushHistory` step starting from the last 1000 entries of a prefix
yields the last 1000 entries of the extended prefix. -/
theorem pushHistory_lastEntries (pre : List PricePoint) (p : PricePoint) :
    pushHistory (lastEntries 1000 pre) p = lastEntries 1000 (pre ++ [p]) := by
  simp only [pushHistory, lastEntries, List.length_append, List.length_singleton]
  rcases le_or_lt pre.length 1000 with hL | hL
  · rw [Nat.sub_eq_zero_of_le hL, List.drop_zero]
    by_cases h2 : 1000 < pre.length + 1
    · rw [if_pos (by omega)]
    · rw [if_neg (by omega)]
      have hz : pre.length + 1 - 1000 = 0 := by omega
      rw [hz, List.drop_zero]
  · have hlen : (pre.drop (pre.length - 1000)).length = 1000 := by
      rw [List.length_drop]; omega
    rw [if_pos (by omega)]
    rw [hlen]
    rw [List.drop_append_of_le_length (by omega)]
    rw [List.drop_drop]
    rw [List.drop_append_of_le_length (by omega)]
    have harith : pre.length - 1000 + (1000 + 1 - 1000) = pre.length + 1 - 1000 := by omega
    rw [harith]

/-- Claim C9: starting from an empty buffer, any sequence of appends through
`pushHistory` leaves at most 1000 entries, and the buffer is exactly the
last 1000 appended points in append order (oldest evicted first). -/
theorem c9_history_bounded (ps : List PricePoint) :
    (ps.foldl pushHistory []).length ≤ 1000 ∧
    ps.foldl pushHistory [] = lastEntries 1000 ps := by
  have key : ∀ (qs pre : List PricePoint),
      qs.foldl pushHistory (lastEntries 1000 pre) = lastEntries 1000 (pre ++ qs) := by
    intro qs
    induction qs with
    | nil => intro pre; simp [lastEntries]
    | cons q qs ih =>
      intro pre
      rw [List.foldl_cons, pushHistory_lastEntries, ih (pre ++ [q]), List.append_assoc,
        List.singleton_append]
  have hmain : ps.foldl pushHistory [] = lastEntries 1000 ps := by
    have h := key ps []
    rw [List.nil_append] at h
    exact h
  refine ⟨?_, hmain⟩
  rw [hmain]
  simp only [lastEntries, List.length_drop]
  omega

end LiquidityMonitor
